import Mathlib

/-!
Shallow embedding of the LFT consensus engine fragments under verification:
`lft/consensus/term/rotate_term.py`, `lft/consensus/layers/sync/layer.py`,
`lft/app/console.py` and `lft/app/app.py`, together with theorems checking
the natural-language specification against them.

Python byte strings are embedded as `List Nat`, Python ints as `Nat`
(all occurring values are non-negative; signed indices use `Int`),
and Python float delays as `ℚ` (the literal `2.0` is exact).
Exceptions are embedded as `Except Err`.
-/

namespace LFT

/-- Python `bytes` values (node ids, data ids, vote ids). -/
abbrev Bytes := List Nat

/-- Error kinds raised by the embedded code: the admission errors
`InvalidTerm`, `InvalidRound`, `AlreadyProposed`, `AlreadyVoted`
(`lft/consensus/exceptions.py`), the authorization errors
`InvalidProposer`, `InvalidVoter` (`lft/consensus/term/term.py`),
and the Python runtime errors `TypeError` / `IndexError` that the
embedded code can hit. -/
inductive Err where
  | invalidTerm
  | invalidRound
  | alreadyProposed
  | alreadyVoted
  | invalidProposer
  | invalidVoter
  | typeError
  | indexError
  deriving DecidableEq, Repr

/-- A consensus vote (`lft.consensus.messages.vote.Vote`): id, voted data id,
voter id, term/epoch number, round number, and the sentinel flags of the
spec's tagged-variant model. -/
structure Vote where
  id : Bytes
  data_id : Bytes
  voter_id : Bytes
  term_num : Nat
  round_num : Nat
  is_lazy : Bool
  deriving DecidableEq, Repr

/-- A consensus data block (`lft.consensus.messages.data.Data`, constructed as
`DefaultData` by the app): id, previous id, proposer id, block number,
term/epoch number, round number, embedded previous-round votes, and the
sentinel flags of the spec's tagged-variant model. -/
structure Data where
  id : Bytes
  prev_id : Bytes
  proposer_id : Bytes
  number : Nat
  term_num : Nat
  round_num : Nat
  prev_votes : List Vote
  is_none : Bool
  is_lazy : Bool
  deriving DecidableEq, Repr

/-! ## RotateTerm (`lft/consensus/term/rotate_term.py`) -/

/-- `RotateTerm.__init__`: term number, ordered voter list, rotate bound. -/
structure RotateTerm where
  num : Nat
  voters : List Bytes
  rotate_bound : Nat
  deriving DecidableEq, Repr

/-- Numerator of the IEEE-754 double nearest to the literal `0.67` over the
denominator `2 ^ 53`: Python parses `0.67` as this double. -/
def c067num : Nat := 6034823500676465

/-- Fuel-driven `⌊log2⌋` helper (structurally recursive so that proofs can
evaluate it): with `fuel ≥ n` it computes `⌊log2 n⌋` for `n ≥ 1`. -/
def log2Aux : Nat → Nat → Nat
  | 0, _ => 0
  | fuel + 1, n => if n < 2 then 0 else log2Aux fuel (n / 2) + 1

/-- Floor of the base-2 logarithm, `0` at `0`. -/
def log2floor (n : Nat) : Nat := log2Aux n n

/-- Embeds Python `math.ceil(n * 0.67)`.  `n` converts exactly to a double
(all realistic voter counts are far below `2 ^ 53`); the product
`n * 0.67` is the exact rational `n * c067num / 2 ^ 53` correctly rounded
to 53 significant bits (round to nearest, ties to even); `math.ceil` of the
rounded value is exact.  The whole computation is carried out on the scaled
integer `N = n * c067num` (value `N / 2 ^ 53`): `ep = ⌊log2 N⌋` locates the
binade, the real mantissa is `N / 2 ^ s` with `s = ep - 52`, `M` is its
rounding, and the double's value is `M * 2 ^ (ep - 105)`. -/
def ceilMul067 (n : Nat) : Nat :=
  if n = 0 then 0
  else
    let N := n * c067num
    let ep := log2floor N
    let s := ep - 52
    let f := N / 2 ^ s
    let r := N % 2 ^ s
    let M : Nat :=
      if s = 0 then N
      else if r < 2 ^ (s - 1) then f
      else if 2 ^ (s - 1) < r then f + 1
      else if f % 2 = 0 then f else f + 1
    if 105 ≤ ep then M * 2 ^ (ep - 105)
    else (M + 2 ^ (105 - ep) - 1) / 2 ^ (105 - ep)

/-- `RotateTerm.quorum_num`: `math.ceil(len(self._voters) * 0.67)`. -/
def RotateTerm.quorum_num (t : RotateTerm) : Nat :=
  ceilMul067 t.voters.length

/-- `RotateTerm.get_proposer_id`:
`self._voters[round_num // self._rotate_bound % len(self._voters)]`.
Out-of-range indexing (empty voter list) yields `none`, embedding the
Python `IndexError`/`ZeroDivisionError` crash on an empty voter list. -/
def RotateTerm.get_proposer_id (t : RotateTerm) (round_num : Nat) : Option Bytes :=
  t.voters.get? (round_num / t.rotate_bound % t.voters.length)

/-- `RotateTerm.get_voter_id`: `self._voters[vote_index]`, with Python's
negative-index wrap-around; `none` embeds `IndexError`. -/
def RotateTerm.get_voter_id (t : RotateTerm) (vote_index : Int) : Option Bytes :=
  if 0 ≤ vote_index then t.voters.get? vote_index.toNat
  else if 0 ≤ (t.voters.length : Int) + vote_index then
    t.voters.get? ((t.voters.length : Int) + vote_index).toNat
  else none

/-- `RotateTerm.verify_voter`: positional check when `vote_index >= 0`,
membership check otherwise. -/
def RotateTerm.verify_voter (t : RotateTerm) (voter : Bytes) (vote_index : Int) :
    Except Err Unit :=
  if 0 ≤ vote_index then
    match t.get_voter_id vote_index with
    | none => .error .indexError
    | some expected => if voter ≠ expected then .error .invalidVoter else .ok ()
  else
    if voter ∈ t.voters then .ok () else .error .invalidVoter

/-- `RotateTerm.verify_vote`: `self.verify_voter(vote.voter_id, vote_index)`. -/
def RotateTerm.verify_vote (t : RotateTerm) (vote : Vote) (vote_index : Int) :
    Except Err Unit :=
  t.verify_voter vote.voter_id vote_index

/-- `RotateTerm.verify_proposer`: compare against `get_proposer_id(round_num)`. -/
def RotateTerm.verify_proposer (t : RotateTerm) (proposer_id : Bytes) (round_num : Nat) :
    Except Err Unit :=
  match t.get_proposer_id round_num with
  | none => .error .indexError
  | some expected =>
    if proposer_id ≠ expected then .error .invalidProposer else .ok ()

/-- `RotateTerm.verify_data`: verifies the proposer, then runs
`for i, vote in data.prev_votes:`.  That loop tuple-unpacks each *element* of
`prev_votes`; an element is a single vote object (see
`tests/test_utils/test_datas.py` and `DefaultData` in `lft/app`), not an
`(index, vote)` pair, so the first iteration over a non-empty `prev_votes`
raises `TypeError` before any voter check runs. -/
def RotateTerm.verify_data (t : RotateTerm) (data : Data) : Except Err Unit :=
  (t.verify_proposer data.proposer_id data.round_num).bind fun _ =>
    match data.prev_votes with
    | [] => .ok ()
    | _ :: _ => .error .typeError

/-- `RotateTerm.get_voters_id`: `self._voters`. -/
def RotateTerm.get_voters_id (t : RotateTerm) : List Bytes :=
  t.voters

/-! ## Message factories (external contract, `lft/consensus/factories.py`) -/

/-- Sentinel id of none messages (`NONE_ID = b"0"` in the test doubles). -/
def NONE_ID : Bytes := [48]

/-- Sentinel id of lazy messages. -/
def LAZY_ID : Bytes := [76]

/-- Modelled from the spec: `DataFactory.create_none_data(epoch, round,
proposer)` builds the sentinel none-data for `(term_num, round_num)` with the
given proposer; none/lazy data "carry sentinel ids" and are "structurally
distinguishable".  The factory implementation is not under `src/`. -/
def create_none_data (term_num round_num : Nat) (proposer_id : Bytes) : Data :=
  { id := NONE_ID, prev_id := [], proposer_id := proposer_id, number := 0,
    term_num := term_num, round_num := round_num, prev_votes := [],
    is_none := true, is_lazy := false }

/-- Modelled from the spec: `DataFactory.create_lazy_data(epoch, round,
proposer)` builds the sentinel lazy-data for `(term_num, round_num)` with the
given proposer.  The factory implementation is not under `src/`. -/
def create_lazy_data (term_num round_num : Nat) (proposer_id : Bytes) : Data :=
  { id := LAZY_ID, prev_id := [], proposer_id := proposer_id, number := 0,
    term_num := term_num, round_num := round_num, prev_votes := [],
    is_none := false, is_lazy := true }

/-- Modelled from the spec: `VoteFactory.create_lazy_vote(voter, epoch, round)`
builds the sentinel lazy-vote of the given voter for `(term_num, round_num)`.
The factory implementation is not under `src/`. -/
def create_lazy_vote (voter : Bytes) (term_num round_num : Nat) : Vote :=
  { id := LAZY_ID ++ voter, data_id := LAZY_ID, voter_id := voter,
    term_num := term_num, round_num := round_num, is_lazy := true }

/-! ## SyncMessages (spec model of `lft/consensus/layers/sync/messages.py`) -/

/-- Modelled from the spec: the per-round message store used by the Sync
layer (`SyncMessages`, whose implementation is not under `src/`): a "set of
Data and Vote", with votes additionally keyed "by `data_id`".  Insertion
order is kept so that vote drains replay votes in arrival order. -/
structure SyncMessages where
  datas : List Data
  votes : List Vote
  deriving DecidableEq, Repr

/-- Modelled from the spec: `SyncMessages.add_data` inserts a data. -/
def SyncMessages.add_data (m : SyncMessages) (data : Data) : SyncMessages :=
  { m with datas := m.datas ++ [data] }

/-- Modelled from the spec: `SyncMessages.add_vote` inserts a vote. -/
def SyncMessages.add_vote (m : SyncMessages) (vote : Vote) : SyncMessages :=
  { m with votes := m.votes ++ [vote] }

/-- Modelled from the spec: `data in messages` membership test used by the
`AlreadyProposed` guard. -/
def SyncMessages.has_data (m : SyncMessages) (data : Data) : Prop :=
  data ∈ m.datas

instance (m : SyncMessages) (data : Data) : Decidable (m.has_data data) :=
  inferInstanceAs (Decidable (data ∈ m.datas))

/-- Modelled from the spec: `vote in messages` membership test used by the
`AlreadyVoted` guard. -/
def SyncMessages.has_vote (m : SyncMessages) (vote : Vote) : Prop :=
  vote ∈ m.votes

instance (m : SyncMessages) (vote : Vote) : Decidable (m.has_vote vote) :=
  inferInstanceAs (Decidable (vote ∈ m.votes))

/-- Modelled from the spec: `SyncMessages.get_data(data_id)` looks a data up
by id (`None` when absent). -/
def SyncMessages.get_data (m : SyncMessages) (data_id : Bytes) : Option Data :=
  m.datas.find? fun d => decide (d.id = data_id)

/-- Modelled from the spec: `SyncMessages.get_votes(data_id)` returns the
votes keyed by `data_id`, in insertion order. -/
def SyncMessages.get_votes (m : SyncMessages) (data_id : Bytes) : List Vote :=
  m.votes.filter fun v => decide (v.data_id = data_id)

/-- Modelled from the spec: `SyncMessages.reach_quorum(quorum)` holds when
"the number of received votes" reaches the quorum. -/
def SyncMessages.reach_quorum (m : SyncMessages) (quorum : Nat) : Bool :=
  quorum ≤ m.votes.length

/-- Modelled from the spec: `SyncMessages.reach_quorum_consensus(quorum)`
holds when some "single `data_id`" has reached the quorum. -/
def SyncMessages.reach_quorum_consensus (m : SyncMessages) (quorum : Nat) : Bool :=
  m.votes.any fun v => quorum ≤ (m.get_votes v.data_id).length

/-! ## SyncLayer (`lft/consensus/layers/sync/layer.py`) -/

/-- `TIMEOUT_PROPOSE = 2.0` (the float literal is exact). -/
def TIMEOUT_PROPOSE : ℚ := 2

/-- `TIMEOUT_VOTE = 2.0` (the float literal is exact). -/
def TIMEOUT_VOTE : ℚ := 2

/-- Events the Sync layer hands to the event system
(`ReceiveDataEvent` / `ReceiveVoteEvent`). -/
inductive Event where
  | receiveData (data : Data)
  | receiveVote (vote : Vote)
  deriving DecidableEq, Repr

/-- A delayed event passed to `DelayedEventMediator.execute(delay, event)`,
with the event's `deterministic` flag at scheduling time. -/
structure Scheduled where
  delay : ℚ
  event : Event
  deterministic : Bool
  deriving DecidableEq, Repr

/-- Observable effects of one Sync-layer call, in emission order:
data/votes forwarded to the Round layer, events scheduled on the delayed
mediator, and the `round_start` call into the Round layer. -/
inductive Output where
  | dataToRound (data : Data)
  | voteToRound (vote : Vote)
  | delayed (s : Scheduled)
  | roundStartToRound
  deriving DecidableEq, Repr

/-- The immutable part of a `SyncLayer` instance: its term and round.
(The Round layer, event system and factories are modelled by the `Output`
trace; the node id and logger play no role in the verified behaviour.) -/
structure SyncLayer where
  term : RotateTerm
  round_num : Nat
  deriving DecidableEq, Repr

/-- The mutable part of a `SyncLayer` instance: `self._messages` and
`self._vote_timeout_started`. -/
structure SyncState where
  messages : SyncMessages
  vote_timeout_started : Bool
  deriving DecidableEq, Repr

/-- The state of a freshly constructed `SyncLayer` (empty store, flag down). -/
def initSyncState : SyncState :=
  { messages := { datas := [], votes := [] }, vote_timeout_started := false }

/-- `SyncLayer._verify_acceptable_data`: `InvalidTerm`, then `InvalidRound`,
then `AlreadyProposed`, in that order. -/
def SyncLayer.verify_acceptable_data (c : SyncLayer) (m : SyncMessages) (data : Data) :
    Except Err Unit :=
  if c.term.num ≠ data.term_num then .error .invalidTerm
  else if c.round_num ≠ data.round_num then .error .invalidRound
  else if m.has_data data then .error .alreadyProposed
  else .ok ()

/-- `SyncLayer._verify_acceptable_vote`: `InvalidTerm`, then `InvalidRound`,
then `AlreadyVoted`, in that order. -/
def SyncLayer.verify_acceptable_vote (c : SyncLayer) (m : SyncMessages) (vote : Vote) :
    Except Err Unit :=
  if c.term.num ≠ vote.term_num then .error .invalidTerm
  else if c.round_num ≠ vote.round_num then .error .invalidRound
  else if m.has_vote vote then .error .alreadyVoted
  else .ok ()

/-- `SyncLayer._receive_votes_if_exist`: forward every pooled vote whose
`data_id` equals the data's id to the Round layer. -/
def SyncLayer.receive_votes_if_exist (m : SyncMessages) (data : Data) : List Output :=
  (m.get_votes data.id).map Output.voteToRound

/-- `SyncLayer._receive_data` (Python name `_receive_data`): verify, insert,
forward the data to the Round layer, then drain pooled votes for it. -/
def SyncLayer.receive_data_impl (c : SyncLayer) (s : SyncState) (data : Data) :
    Except Err (SyncState × List Output) :=
  (c.verify_acceptable_data s.messages data).bind fun _ =>
    let m := s.messages.add_data data
    .ok ({ s with messages := m },
         Output.dataToRound data :: SyncLayer.receive_votes_if_exist m data)

/-- `SyncLayer.receive_data`: the public edge; `InvalidTerm`, `InvalidRound`
and `AlreadyProposed` are caught and swallowed (`pass`), everything else
would propagate. -/
def SyncLayer.receive_data (c : SyncLayer) (s : SyncState) (data : Data) :
    Except Err (SyncState × List Output) :=
  match c.receive_data_impl s data with
  | .ok r => .ok r
  | .error .invalidTerm => .ok (s, [])
  | .error .invalidRound => .ok (s, [])
  | .error .alreadyProposed => .ok (s, [])
  | .error e => .error e

/-- The lazy-vote batch: one lazy vote per voter of the term, each wrapped by
`SyncLayer._raise_receive_vote` in a `ReceiveVoteEvent` whose `deterministic`
flag is cleared and scheduled at `TIMEOUT_VOTE`. -/
def SyncLayer.lazy_vote_batch (c : SyncLayer) : List Output :=
  c.term.get_voters_id.map fun voter =>
    Output.delayed
      { delay := TIMEOUT_VOTE,
        event := .receiveVote (create_lazy_vote voter c.term.num c.round_num),
        deterministic := false }

/-- `SyncLayer._raise_lazy_votes_if_available`: nothing if the timeout flag is
already up, or quorum is not reached, or some single data id already reached
quorum; otherwise raise the flag and schedule the lazy-vote batch. -/
def SyncLayer.raise_lazy_votes_if_available (c : SyncLayer) (s : SyncState) :
    SyncState × List Output :=
  if s.vote_timeout_started then (s, [])
  else if ¬ s.messages.reach_quorum c.term.quorum_num then (s, [])
  else if s.messages.reach_quorum_consensus c.term.quorum_num then (s, [])
  else ({ s with vote_timeout_started := true }, c.lazy_vote_batch)

/-- `SyncLayer._receive_vote_if_data_exist`: forward the vote to the Round
layer when its data is already pooled. -/
def SyncLayer.receive_vote_if_data_exist (m : SyncMessages) (vote : Vote) : List Output :=
  if (m.get_data vote.data_id).isSome then [Output.voteToRound vote] else []

/-- `SyncLayer._receive_vote` (Python name `_receive_vote`): verify, insert,
forward when the matching data exists, then check the lazy-vote timeout. -/
def SyncLayer.receive_vote_impl (c : SyncLayer) (s : SyncState) (vote : Vote) :
    Except Err (SyncState × List Output) :=
  (c.verify_acceptable_vote s.messages vote).bind fun _ =>
    let m := s.messages.add_vote vote
    let s1 : SyncState := { s with messages := m }
    let outs1 := SyncLayer.receive_vote_if_data_exist m vote
    let r2 := c.raise_lazy_votes_if_available s1
    .ok (r2.1, outs1 ++ r2.2)

/-- `SyncLayer.receive_vote`: the public edge; `InvalidTerm`, `InvalidRound`
and `AlreadyVoted` are caught and swallowed (`pass`), everything else would
propagate. -/
def SyncLayer.receive_vote (c : SyncLayer) (s : SyncState) (vote : Vote) :
    Except Err (SyncState × List Output) :=
  match c.receive_vote_impl s vote with
  | .ok r => .ok r
  | .error .invalidTerm => .ok (s, [])
  | .error .invalidRound => .ok (s, [])
  | .error .alreadyVoted => .ok (s, [])
  | .error e => .error e

/-- `SyncLayer._new_unreal_datums`: feed a fabricated none-data for the
expected proposer through `_receive_data`, then schedule a fabricated
lazy-data for the same proposer at `TIMEOUT_PROPOSE` through
`_raise_receive_data` (which clears the event's `deterministic` flag).
A `none` proposer lookup embeds the Python `IndexError` on an empty
voter list. -/
def SyncLayer.new_unreal_datums (c : SyncLayer) (s : SyncState) :
    Except Err (SyncState × List Output) :=
  match c.term.get_proposer_id c.round_num with
  | none => .error .indexError
  | some proposer =>
    (c.receive_data_impl s (create_none_data c.term.num c.round_num proposer)).bind
      fun (s1, outs1) =>
        match c.term.get_proposer_id c.round_num with
        | none => .error .indexError
        | some expected_proposer =>
          .ok (s1, outs1 ++
            [Output.delayed
              { delay := TIMEOUT_PROPOSE,
                event := .receiveData
                  (create_lazy_data c.term.num c.round_num expected_proposer),
                deterministic := false }])

/-- `SyncLayer.round_start`: `_new_unreal_datums` first, then
`self._round_layer.round_start()`. -/
def SyncLayer.round_start (c : SyncLayer) (s : SyncState) :
    Except Err (SyncState × List Output) :=
  (c.new_unreal_datums s).bind fun (s1, outs) =>
    .ok (s1, outs ++ [Output.roundStartToRound])

/-! ## Console timer restoration (`lft/app/console.py`) -/

/-- The three interchangeable executors of the `DelayedEventMediator`
(`DelayedEventInstantMediatorExecutor`, `DelayedEventRecorderMediatorExecutor`,
and the replayer used in replay mode). -/
inductive ExecutorKind where
  | instant
  | recorder
  | replayer
  deriving DecidableEq, Repr

/-- Modelled from the spec: an outstanding handler of a mediator executor
(`DelayedEventMediator`'s internals are not under `src/`): the wrapped event
and the timer's absolute fire time (`timer_handler.when()`). -/
structure DelayedHandler where
  fire_time : ℚ
  event : Event
  deriving DecidableEq, Repr

/-- Modelled from the spec: the observable state of a node's
`DelayedEventMediator` (not under `src/`): which executor it runs and that
executor's set of outstanding handlers (kept in order). -/
structure DelayedEventMediator where
  kind : ExecutorKind
  handlers : List DelayedHandler
  deriving DecidableEq, Repr

/-- `Handler._restore_delayed_mediator` (`lft/app/console.py`): return
untouched unless the executor is the Instant or the Recorder one; otherwise
take the outstanding handlers, reset the handler set, and for each old
handler cancel its timer and call `mediator.execute(when() - start_time,
event)`.  The re-scheduling calls are returned as `(delay, event)` pairs in
iteration order. -/
def restore_delayed_mediator (start_time : ℚ) (m : DelayedEventMediator) :
    DelayedEventMediator × List (ℚ × Event) :=
  match m.kind with
  | .replayer => (m, [])
  | _ =>
    ({ m with handlers := [] },
     m.handlers.map fun h => (h.fire_time - start_time, h.event))

/-! ## App bootstrap (`lft/app/app.py`) -/

/-- `InitializeEvent(term_num, round_num, data, votes, voters)` plus its
`deterministic` flag (`lft/consensus/events.py`). -/
structure InitializeEvent where
  term_num : Nat
  round_num : Nat
  data : Data
  votes : List Vote
  voters : List Bytes
  deterministic : Bool
  deriving DecidableEq, Repr

/-- The byte string `b'genesis'`. -/
def GENESIS_ID : Bytes := [103, 101, 110, 101, 115, 105, 115]

/-- `App._raise_init_event`: build the genesis `DefaultData`, wrap it in an
`InitializeEvent(0, 0, genesis_data, [], voter ids)`, clear the event's
`deterministic` flag and raise it.  `nodes[0]` on an empty node list embeds
the Python `IndexError`; the raised event is returned. -/
def raise_init_event (nodes : List Bytes) : Option InitializeEvent :=
  match nodes with
  | [] => none
  | node0 :: _ =>
    let genesis_data : Data :=
      { id := GENESIS_ID, prev_id := [], proposer_id := node0, number := 0,
        term_num := 0, round_num := 0, prev_votes := [],
        is_none := false, is_lazy := false }
    some { term_num := 0, round_num := 0, data := genesis_data, votes := [],
           voters := nodes, deterministic := false }

/-! ## Vote-receipt run harness (drives `receive_vote` over a sequence) -/

/-- The Boolean shadow of `_verify_acceptable_vote`: whether the vote passes
admission against the given message store. -/
def SyncLayer.acceptsVote (c : SyncLayer) (m : SyncMessages) (vote : Vote) : Bool :=
  match c.verify_acceptable_vote m vote with
  | .ok _ => true
  | .error _ => false

/-- The fragmented-quorum condition of `_raise_lazy_votes_if_available`:
the pooled votes reach the quorum and no single data id does. -/
def SyncLayer.lazyCond (c : SyncLayer) (m : SyncMessages) : Bool :=
  m.reach_quorum c.term.quorum_num && ! m.reach_quorum_consensus c.term.quorum_num

/-- One driver step: the result of the public `receive_vote`.  The error arm
is dead code (`receive_vote` always returns `ok`, see
`receive_edge_swallows`); it only makes the driver total. -/
def SyncLayer.step_vote (c : SyncLayer) (s : SyncState) (vote : Vote) :
    SyncState × List Output :=
  match c.receive_vote s vote with
  | .ok r => r
  | .error _ => (s, [])

/-- Driver: deliver a sequence of votes to the layer, collecting each step's
outputs. -/
def SyncLayer.run_votes (c : SyncLayer) (s : SyncState) :
    List Vote → SyncState × List (List Output)
  | [] => (s, [])
  | v :: rest =>
    let r := c.step_vote s v
    let rr := c.run_votes r.1 rest
    (rr.1, r.2 :: rr.2)

/-- Whether an output is an event scheduled on the delayed mediator. -/
def isDelayedOutput : Output → Bool
  | .delayed _ => true
  | _ => false

/-- Whether an output list schedules anything on the delayed mediator. -/
def hasDelayed (outs : List Output) : Bool :=
  outs.any isDelayedOutput

/-- How many steps of a run scheduled delayed events. -/
def countBatches (oss : List (List Output)) : Nat :=
  oss.countP hasDelayed

/-! ## Concrete fixtures for witnesses and counterexamples -/

/-- A 4-voter term with `rotate_bound = 1`, as in scenario S1. -/
def sampleTerm : RotateTerm := { num := 0, voters := [[0], [1], [2], [3]], rotate_bound := 1 }

/-- A Sync layer for round 0 of `sampleTerm`. -/
def sampleSync : SyncLayer := { term := sampleTerm, round_num := 0 }

/-- A real proposal for round 0 of `sampleTerm`. -/
def sampleData : Data :=
  { id := [10], prev_id := GENESIS_ID, proposer_id := [0], number := 1,
    term_num := 0, round_num := 0, prev_votes := [], is_none := false, is_lazy := false }

/-- A real vote of `voter` for `data_id` in round 0 of `sampleTerm`. -/
def sampleVote (voter : Bytes) (data_id : Bytes) : Vote :=
  { id := voter ++ data_id, data_id := data_id, voter_id := voter,
    term_num := 0, round_num := 0, is_lazy := false }

/-! ## Theorems -/

set_option maxRecDepth 8192 in
/-- Bounded evaluation of the quorum formula: on every voter count up to 100,
`math.ceil(n * 0.67)` equals `⌈67n/100⌉`, which is `⌈2n/3⌉` exactly when `n`
is not a positive multiple of 3 and `⌈2n/3⌉ + 1` otherwise
(`(2n + 2) / 3` is `⌈2n/3⌉` in natural division). -/
lemma ceilMul067_ball : ∀ n : Nat, n < 101 →
    ceilMul067 n = (67 * n + 99) / 100 ∧
    (¬ 3 ∣ n → ceilMul067 n = (2 * n + 2) / 3) ∧
    (3 ∣ n → 1 ≤ n → ceilMul067 n = (2 * n + 2) / 3 + 1) := by
  decide

/-- C1, counterexample: a `RotateTerm` over 3 voters has `quorum_num = 3`,
but `⌈2/3 · 3⌉ = 2` (written `(2 * n + 2) / 3`, the ceiling of `2n/3` in
natural division), so `quorum_num` is not the ceiling of `2/3` of the voter
count. -/
theorem quorum_num_three_voters_ne_two_thirds :
    (RotateTerm.mk 0 [[0], [1], [2]] 1).quorum_num = 3 ∧
    (2 * (RotateTerm.mk 0 [[0], [1], [2]] 1).voters.length + 2) / 3 = 2 ∧
    (RotateTerm.mk 0 [[0], [1], [2]] 1).quorum_num ≠
      (2 * (RotateTerm.mk 0 [[0], [1], [2]] 1).voters.length + 2) / 3 := by
  decide

/-- C1, amended: for every `RotateTerm` over `n` voters with `1 ≤ n ≤ 100`,
`quorum_num` equals `⌈0.67 · n⌉ = ⌈67n/100⌉` (the source computes
`math.ceil(n * 0.67)` in IEEE-754 double arithmetic); this equals `⌈2n/3⌉`
when `3 ∤ n` and `⌈2n/3⌉ + 1` when `3 ∣ n`. -/
theorem quorum_num_eq_ceil067 (t : RotateTerm)
    (h1 : 1 ≤ t.voters.length) (h2 : t.voters.length ≤ 100) :
    t.quorum_num = (67 * t.voters.length + 99) / 100 ∧
    (¬ 3 ∣ t.voters.length → t.quorum_num = (2 * t.voters.length + 2) / 3) ∧
    (3 ∣ t.voters.length → t.quorum_num = (2 * t.voters.length + 2) / 3 + 1) := by
  have h := ceilMul067_ball t.voters.length (by omega)
  unfold RotateTerm.quorum_num
  exact ⟨h.1, h.2.1, fun hd => h.2.2 hd h1⟩

/-- Witness for `quorum_num_eq_ceil067` at a 4-voter term: the quorum is
`⌈67 · 4 / 100⌉ = 3`. -/
theorem quorum_num_eq_ceil067_witness :
    1 ≤ (RotateTerm.mk 0 [[0], [1], [2], [3]] 1).voters.length ∧
    (RotateTerm.mk 0 [[0], [1], [2], [3]] 1).voters.length ≤ 100 ∧
    (RotateTerm.mk 0 [[0], [1], [2], [3]] 1).quorum_num =
      (67 * (RotateTerm.mk 0 [[0], [1], [2], [3]] 1).voters.length + 99) / 100 ∧
    (RotateTerm.mk 0 [[0], [1], [2], [3]] 1).quorum_num = 3 :=
  ⟨by decide, by decide,
   (quorum_num_eq_ceil067 (RotateTerm.mk 0 [[0], [1], [2], [3]] 1)
      (by decide) (by decide)).1,
   by decide⟩

/-- C2: `RotateTerm.verify_data` does not implement the positional voter
check.  On a data whose `prev_votes` is the ordered one-vote list `[v]` with
`v.voter_id = voters[0]` (so the claimed positional check succeeds, as the
second and third conjuncts show), the loop `for i, vote in data.prev_votes:`
tuple-unpacks the vote object itself and raises `TypeError`; no
`InvalidVoter` analysis is ever reached. -/
theorem verify_data_raises_typeerror :
    (RotateTerm.mk 0 [[0]] 1).verify_data
        { id := [1], prev_id := [], proposer_id := [0], number := 1,
          term_num := 0, round_num := 0,
          prev_votes := [{ id := [9], data_id := [1], voter_id := [0],
                           term_num := 0, round_num := 0, is_lazy := false }],
          is_none := false, is_lazy := false } = .error .typeError ∧
    (RotateTerm.mk 0 [[0]] 1).verify_voter [0] 0 = .ok () ∧
    (RotateTerm.mk 0 [[0]] 1).verify_proposer [0] 0 = .ok () :=
  ⟨rfl, rfl, rfl⟩

/-- C3: for every `RotateTerm` with a rotate bound of at least 1 and a
non-empty voter list, `get_proposer_id r` is the voter at index
`(r / rotate_bound) % n` (integer division). -/
theorem get_proposer_id_rotates (t : RotateTerm) (r : Nat)
    (hb : 1 ≤ t.rotate_bound) (hv : t.voters ≠ []) :
    t.get_proposer_id r =
      some (t.voters.get
        ⟨r / t.rotate_bound % t.voters.length,
         Nat.mod_lt _ (List.length_pos.mpr hv)⟩) := by
  unfold RotateTerm.get_proposer_id
  exact List.get?_eq_get _

/-- Witness for `get_proposer_id_rotates`, scenario S6: with 3 voters and
`rotate_bound = 2`, the proposers for rounds 0..5 are
`v0, v0, v1, v1, v2, v2`. -/
theorem get_proposer_id_rotates_witness :
    1 ≤ (RotateTerm.mk 0 [[0], [1], [2]] 2).rotate_bound ∧
    (RotateTerm.mk 0 [[0], [1], [2]] 2).voters ≠ [] ∧
    (RotateTerm.mk 0 [[0], [1], [2]] 2).get_proposer_id 0 = some [0] ∧
    (RotateTerm.mk 0 [[0], [1], [2]] 2).get_proposer_id 1 = some [0] ∧
    (RotateTerm.mk 0 [[0], [1], [2]] 2).get_proposer_id 2 = some [1] ∧
    (RotateTerm.mk 0 [[0], [1], [2]] 2).get_proposer_id 3 = some [1] ∧
    (RotateTerm.mk 0 [[0], [1], [2]] 2).get_proposer_id 4 = some [2] ∧
    (RotateTerm.mk 0 [[0], [1], [2]] 2).get_proposer_id 5 = some [2] :=
  ⟨by decide, by decide,
   (get_proposer_id_rotates _ 0 (by decide) (by decide)).trans (by decide),
   (get_proposer_id_rotates _ 1 (by decide) (by decide)).trans (by decide),
   (get_proposer_id_rotates _ 2 (by decide) (by decide)).trans (by decide),
   (get_proposer_id_rotates _ 3 (by decide) (by decide)).trans (by decide),
   (get_proposer_id_rotates _ 4 (by decide) (by decide)).trans (by decide),
   (get_proposer_id_rotates _ 5 (by decide) (by decide)).trans (by decide)⟩

/-- Errors of `SyncLayer._receive_data` are exactly the three admission
kinds. -/
lemma receive_data_impl_error_cases (c : SyncLayer) (s : SyncState) (d : Data) :
    ∀ e, c.receive_data_impl s d = .error e →
      e = .invalidTerm ∨ e = .invalidRound ∨ e = .alreadyProposed := by
  intro e
  unfold SyncLayer.receive_data_impl SyncLayer.verify_acceptable_data
  split_ifs <;> simp_all [Except.bind]

/-- Errors of `SyncLayer._receive_vote` are exactly the three admission
kinds. -/
lemma receive_vote_impl_error_cases (c : SyncLayer) (s : SyncState) (v : Vote) :
    ∀ e, c.receive_vote_impl s v = .error e →
      e = .invalidTerm ∨ e = .invalidRound ∨ e = .alreadyVoted := by
  intro e
  unfold SyncLayer.receive_vote_impl SyncLayer.verify_acceptable_vote
  split_ifs <;> simp_all [Except.bind]

/-- C4: `_receive_data` raises `InvalidTerm` exactly on a term mismatch
(checked first); with the term matching it raises `InvalidRound` exactly on a
round mismatch; with both matching it raises `AlreadyProposed` exactly when
the data is already pooled; and otherwise it inserts the data, forwards it to
the Round layer, and then forwards every pooled vote whose `data_id` is the
data's id. -/
theorem receive_data_admission (c : SyncLayer) (s : SyncState) (d : Data) :
    (c.receive_data_impl s d = .error .invalidTerm ↔ c.term.num ≠ d.term_num) ∧
    (c.term.num = d.term_num →
      (c.receive_data_impl s d = .error .invalidRound ↔ c.round_num ≠ d.round_num)) ∧
    (c.term.num = d.term_num → c.round_num = d.round_num →
      (c.receive_data_impl s d = .error .alreadyProposed ↔ d ∈ s.messages.datas)) ∧
    (c.term.num = d.term_num → c.round_num = d.round_num → d ∉ s.messages.datas →
      c.receive_data_impl s d = .ok
        ({ s with messages := s.messages.add_data d },
         Output.dataToRound d ::
           (s.messages.get_votes d.id).map Output.voteToRound)) := by
  unfold SyncLayer.receive_data_impl SyncLayer.verify_acceptable_data
    SyncLayer.receive_votes_if_exist SyncMessages.has_data
  refine ⟨?_, fun h1 => ?_, fun h1 h2 => ?_, fun h1 h2 h3 => ?_⟩ <;>
    split_ifs <;>
    simp_all [Except.bind, SyncMessages.get_votes, SyncMessages.add_data]

/-- C5: the public `receive_data` / `receive_vote` edges never propagate an
admission rejection (they always return successfully), and whenever the inner
call rejects, the returned state is exactly the pre-call state (message pool
and vote-timeout flag untouched) with no forwarded or scheduled output. -/
theorem receive_edge_swallows (c : SyncLayer) (s : SyncState) (d : Data) (v : Vote) :
    (∃ r, c.receive_data s d = .ok r) ∧
    (∀ e, c.receive_data_impl s d = .error e → c.receive_data s d = .ok (s, [])) ∧
    (∃ r, c.receive_vote s v = .ok r) ∧
    (∀ e, c.receive_vote_impl s v = .error e → c.receive_vote s v = .ok (s, [])) := by
  refine ⟨?_, ?_, ?_, ?_⟩
  · cases h : c.receive_data_impl s d with
    | ok r => exact ⟨r, by simp [SyncLayer.receive_data, h]⟩
    | error e =>
      rcases receive_data_impl_error_cases c s d e h with he | he | he <;>
        subst he <;> exact ⟨(s, []), by simp [SyncLayer.receive_data, h]⟩
  · intro e h
    rcases receive_data_impl_error_cases c s d e h with he | he | he <;>
      subst he <;> simp [SyncLayer.receive_data, h]
  · cases h : c.receive_vote_impl s v with
    | ok r => exact ⟨r, by simp [SyncLayer.receive_vote, h]⟩
    | error e =>
      rcases receive_vote_impl_error_cases c s v e h with he | he | he <;>
        subst he <;> exact ⟨(s, []), by simp [SyncLayer.receive_vote, h]⟩
  · intro e h
    rcases receive_vote_impl_error_cases c s v e h with he | he | he <;>
      subst he <;> simp [SyncLayer.receive_vote, h]

/-- Witness for `receive_data_admission`: a fresh round-0 layer accepts a
matching proposal, pools it and forwards it. -/
theorem receive_data_admission_witness :
    sampleSync.term.num = sampleData.term_num ∧
    sampleSync.round_num = sampleData.round_num ∧
    sampleData ∉ initSyncState.messages.datas ∧
    sampleSync.receive_data_impl initSyncState sampleData = .ok
      ({ initSyncState with messages := initSyncState.messages.add_data sampleData },
       Output.dataToRound sampleData ::
         (initSyncState.messages.get_votes sampleData.id).map Output.voteToRound) :=
  ⟨rfl, rfl, by decide,
   (receive_data_admission sampleSync initSyncState sampleData).2.2.2 rfl rfl (by decide)⟩

/-- Witness for `receive_edge_swallows`: a proposal and a vote carrying term
number 5 are rejected with `InvalidTerm` by the inner calls, and the public
edges return success with the state unchanged. -/
theorem receive_edge_swallows_witness :
    sampleSync.receive_data_impl initSyncState { sampleData with term_num := 5 } =
      .error .invalidTerm ∧
    sampleSync.receive_data initSyncState { sampleData with term_num := 5 } =
      .ok (initSyncState, []) ∧
    sampleSync.receive_vote_impl initSyncState { sampleVote [1] [10] with term_num := 5 } =
      .error .invalidTerm ∧
    sampleSync.receive_vote initSyncState { sampleVote [1] [10] with term_num := 5 } =
      .ok (initSyncState, []) :=
  ⟨rfl,
   (receive_edge_swallows sampleSync initSyncState { sampleData with term_num := 5 }
      { sampleVote [1] [10] with term_num := 5 }).2.1 .invalidTerm rfl,
   rfl,
   (receive_edge_swallows sampleSync initSyncState { sampleData with term_num := 5 }
      { sampleVote [1] [10] with term_num := 5 }).2.2.2 .invalidTerm rfl⟩

/-- C7: on `round_start` from a fresh state, the layer first admits a
fabricated none-data for the round's expected proposer (pooling it and
forwarding it to the Round layer), then schedules exactly one lazy-data for
the same proposer at `TIMEOUT_PROPOSE` on the delayed mediator, and only then
calls the Round layer's `round_start`; and `TIMEOUT_PROPOSE` is 2.0 seconds. -/
theorem round_start_unreal_datums (c : SyncLayer) (p : Bytes)
    (h : c.term.get_proposer_id c.round_num = some p) :
    c.round_start initSyncState = .ok
      ({ messages := { datas := [create_none_data c.term.num c.round_num p], votes := [] },
         vote_timeout_started := false },
       [Output.dataToRound (create_none_data c.term.num c.round_num p),
        Output.delayed
          { delay := TIMEOUT_PROPOSE,
            event := .receiveData (create_lazy_data c.term.num c.round_num p),
            deterministic := false },
        Output.roundStartToRound]) ∧ TIMEOUT_PROPOSE = 2 := by
  refine ⟨?_, rfl⟩
  unfold SyncLayer.round_start SyncLayer.new_unreal_datums
  rw [h]
  simp [SyncLayer.receive_data_impl, SyncLayer.verify_acceptable_data,
    SyncMessages.has_data, SyncMessages.add_data, SyncLayer.receive_votes_if_exist,
    SyncMessages.get_votes, Except.bind, initSyncState, create_none_data]

/-- Witness for `round_start_unreal_datums` on the 4-voter round-0 layer:
voter 0 is the expected proposer. -/
theorem round_start_unreal_datums_witness :
    sampleSync.term.get_proposer_id sampleSync.round_num = some [0] ∧
    (sampleSync.round_start initSyncState = .ok
      ({ messages :=
           { datas := [create_none_data sampleSync.term.num sampleSync.round_num [0]],
             votes := [] },
         vote_timeout_started := false },
       [Output.dataToRound (create_none_data sampleSync.term.num sampleSync.round_num [0]),
        Output.delayed
          { delay := TIMEOUT_PROPOSE,
            event := .receiveData (create_lazy_data sampleSync.term.num sampleSync.round_num [0]),
            deterministic := false },
        Output.roundStartToRound]) ∧ TIMEOUT_PROPOSE = 2) :=
  ⟨by decide, round_start_unreal_datums sampleSync [0] (by decide)⟩

/-- C8, counterexample: with the Replayer executor, the console restore
routine returns without touching the mediator: an outstanding handler is
neither cancelled nor re-scheduled. -/
theorem restore_skips_replayer :
    restore_delayed_mediator 1
        { kind := .replayer,
          handlers := [{ fire_time := 5, event := .receiveData sampleData }] } =
      ({ kind := .replayer,
         handlers := [{ fire_time := 5, event := .receiveData sampleData }] }, []) ∧
    ({ kind := .replayer,
       handlers := [{ fire_time := 5, event := .receiveData sampleData }]
       : DelayedEventMediator }).handlers ≠ [] :=
  ⟨rfl, by simp⟩

/-- C8, amended: when the mediator runs the Instant or the Recorder executor
(not the Replayer), every outstanding handler is cancelled (the handler set
is emptied) and its event re-scheduled through the mediator with delay equal
to the original fire time minus the captured start time. -/
theorem restore_instant_recorder (start : ℚ) (m : DelayedEventMediator)
    (h : m.kind ≠ .replayer) :
    restore_delayed_mediator start m =
      ({ m with handlers := [] },
       m.handlers.map fun hd => (hd.fire_time - start, hd.event)) := by
  rcases m with ⟨k, hs⟩
  cases k <;> simp_all [restore_delayed_mediator]

/-- Witness for `restore_instant_recorder`: an Instant-executor mediator with
one handler due at time 5, paused at start time 1, is re-scheduled with the
remaining delay 4. -/
theorem restore_instant_recorder_witness :
    ({ kind := .instant,
       handlers := [{ fire_time := 5, event := .receiveData sampleData }]
       : DelayedEventMediator }).kind ≠ .replayer ∧
    restore_delayed_mediator 1
        { kind := .instant,
          handlers := [{ fire_time := 5, event := .receiveData sampleData }] } =
      ({ kind := .instant, handlers := [] },
       [((5 : ℚ) - 1, Event.receiveData sampleData)]) :=
  ⟨by decide,
   restore_instant_recorder 1
     { kind := .instant,
       handlers := [{ fire_time := 5, event := .receiveData sampleData }] }
     (by decide)⟩

/-- C9: bootstrapping raises an `InitializeEvent` carrying the genesis data
block with id `b'genesis'`, empty `prev_id`, number 0, term 0, round 0 and no
previous votes (proposed by the first node), and the event's `deterministic`
flag is cleared so the record log omits it. -/
theorem init_event_genesis (nodes : List Bytes) (n0 : Bytes) (rest : List Bytes)
    (h : nodes = n0 :: rest) :
    raise_init_event nodes = some
      { term_num := 0, round_num := 0,
        data := { id := GENESIS_ID, prev_id := [], proposer_id := n0, number := 0,
                  term_num := 0, round_num := 0, prev_votes := [],
                  is_none := false, is_lazy := false },
        votes := [], voters := nodes, deterministic := false } := by
  subst h
  rfl

/-- Witness for `init_event_genesis` on a two-node network. -/
theorem init_event_genesis_witness :
    ([[1], [2]] : List Bytes) = [1] :: [[2]] ∧
    raise_init_event [[1], [2]] = some
      { term_num := 0, round_num := 0,
        data := { id := GENESIS_ID, prev_id := [], proposer_id := [1], number := 0,
                  term_num := 0, round_num := 0, prev_votes := [],
                  is_none := false, is_lazy := false },
        votes := [], voters := [[1], [2]], deterministic := false } :=
  ⟨rfl, init_event_genesis [[1], [2]] [1] [[2]] rfl⟩

/-- Normal form of one vote-receipt step: a rejected vote leaves the state
untouched with no output; an admitted vote is pooled, forwarded when its data
is known, and triggers the lazy-vote batch exactly when the timeout flag is
down and the fragmented-quorum condition holds on the grown pool. -/
lemma step_vote_spec (c : SyncLayer) (s : SyncState) (v : Vote) :
    c.step_vote s v =
      if c.acceptsVote s.messages v then
        if !s.vote_timeout_started && c.lazyCond (s.messages.add_vote v) then
          ({ messages := s.messages.add_vote v, vote_timeout_started := true },
           SyncLayer.receive_vote_if_data_exist (s.messages.add_vote v) v ++
             c.lazy_vote_batch)
        else
          ({ messages := s.messages.add_vote v,
             vote_timeout_started := s.vote_timeout_started },
           SyncLayer.receive_vote_if_data_exist (s.messages.add_vote v) v)
      else (s, []) := by
  cases hv : c.verify_acceptable_vote s.messages v with
  | error e =>
    have himpl : c.receive_vote_impl s v = .error e := by
      unfold SyncLayer.receive_vote_impl
      rw [hv]
      rfl
    rcases receive_vote_impl_error_cases c s v e himpl with he | he | he <;> subst he <;>
      simp [SyncLayer.step_vote, SyncLayer.receive_vote, himpl, SyncLayer.acceptsVote, hv]
  | ok u =>
    cases u
    unfold SyncLayer.step_vote SyncLayer.receive_vote SyncLayer.receive_vote_impl
    rw [hv]
    unfold SyncLayer.raise_lazy_votes_if_available SyncLayer.lazyCond
    simp only [Except.bind, SyncLayer.acceptsVote, hv, if_true]
    split_ifs <;> simp_all

/-- The forwarding of a vote to the Round layer schedules nothing. -/
lemma hasDelayed_fwd (m : SyncMessages) (v : Vote) :
    hasDelayed (SyncLayer.receive_vote_if_data_exist m v) = false := by
  unfold SyncLayer.receive_vote_if_data_exist hasDelayed
  split_ifs <;> rfl

/-- No delayed output sits among forwarded votes. -/
lemma delayed_not_mem_fwd (m : SyncMessages) (v : Vote) (sc : Scheduled) :
    Output.delayed sc ∉ SyncLayer.receive_vote_if_data_exist m v := by
  unfold SyncLayer.receive_vote_if_data_exist
  split_ifs <;> simp

/-- Filtering forwarded votes for delayed outputs gives nothing. -/
lemma filter_delayed_fwd (m : SyncMessages) (v : Vote) :
    (SyncLayer.receive_vote_if_data_exist m v).filter isDelayedOutput = [] := by
  unfold SyncLayer.receive_vote_if_data_exist
  split_ifs <;> rfl

/-- Every output of the lazy-vote batch is delayed. -/
lemma filter_delayed_batch (c : SyncLayer) :
    c.lazy_vote_batch.filter isDelayedOutput = c.lazy_vote_batch := by
  rw [List.filter_eq_self]
  intro a ha
  unfold SyncLayer.lazy_vote_batch at ha
  rw [List.mem_map] at ha
  rcases ha with ⟨voter, _, rfl⟩
  rfl

/-- Every member of the lazy-vote batch is scheduled at `TIMEOUT_VOTE` with
its `deterministic` flag cleared. -/
lemma delayed_mem_batch (c : SyncLayer) (sc : Scheduled)
    (h : Output.delayed sc ∈ c.lazy_vote_batch) :
    sc.deterministic = false ∧ sc.delay = TIMEOUT_VOTE := by
  unfold SyncLayer.lazy_vote_batch at h
  rw [List.mem_map] at h
  rcases h with ⟨voter, _, heq⟩
  cases heq
  exact ⟨rfl, rfl⟩

/-- The empty output list schedules nothing. -/
lemma hasDelayed_nil : hasDelayed [] = false := rfl

/-- With the vote-timeout flag already up, a vote receipt schedules nothing
and keeps the flag up. -/
lemma step_vote_flag_true (c : SyncLayer) (s : SyncState) (v : Vote)
    (h : s.vote_timeout_started = true) :
    (c.step_vote s v).1.vote_timeout_started = true ∧
    hasDelayed (c.step_vote s v).2 = false := by
  rw [step_vote_spec]
  cases ha : c.acceptsVote s.messages v <;> simp [h, ha, hasDelayed_fwd, hasDelayed_nil]

/-- With the vote-timeout flag up, a whole run schedules nothing and the
flag stays up. -/
lemma run_votes_flag_true (c : SyncLayer) (l : List Vote) :
    ∀ s : SyncState, s.vote_timeout_started = true →
      countBatches (c.run_votes s l).2 = 0 ∧
      (c.run_votes s l).1.vote_timeout_started = true := by
  induction l with
  | nil => exact fun s h => ⟨rfl, h⟩
  | cons v rest ih =>
    intro s h
    have hA := step_vote_flag_true c s v h
    have hr := ih (c.step_vote s v).1 hA.1
    refine ⟨?_, hr.2⟩
    simp only [SyncLayer.run_votes, countBatches, List.countP_cons, hA.2]
    simpa [countBatches] using hr.1

/-- A step that schedules something from a down flag raises the flag. -/
lemma step_emit_sets_flag (c : SyncLayer) (s : SyncState) (v : Vote)
    (hf : s.vote_timeout_started = false)
    (hd : hasDelayed (c.step_vote s v).2 = true) :
    (c.step_vote s v).1.vote_timeout_started = true := by
  rw [step_vote_spec] at hd ⊢
  cases ha : c.acceptsVote s.messages v <;>
    cases hc : c.lazyCond (s.messages.add_vote v) <;>
    simp_all [hasDelayed_fwd, hasDelayed_nil]

/-- At most one step of any run schedules delayed events. -/
lemma run_votes_at_most_one (c : SyncLayer) (l : List Vote) :
    ∀ s : SyncState, countBatches (c.run_votes s l).2 ≤ 1 := by
  induction l with
  | nil => intro s; exact Nat.zero_le 1
  | cons v rest ih =>
    intro s
    cases hf : s.vote_timeout_started with
    | true =>
      have h0 := (run_votes_flag_true c (v :: rest) s hf).1
      omega
    | false =>
      have hrw : (c.run_votes s (v :: rest)).2
          = (c.step_vote s v).2 :: (c.run_votes (c.step_vote s v).1 rest).2 := rfl
      rw [countBatches, hrw, List.countP_cons]
      cases hd : hasDelayed (c.step_vote s v).2 with
      | false =>
        simpa [countBatches] using ih (c.step_vote s v).1
      | true =>
        have hflag := step_emit_sets_flag c s v hf hd
        have h0 := (run_votes_flag_true c rest (c.step_vote s v).1 hflag).1
        simp only [countBatches] at h0
        simp [h0]

/-- C6: the lazy-vote batch is generated at most once per layer instance.
With the flag down, a vote receipt raises the flag and schedules the batch
exactly when the vote is admitted and the grown pool reaches `quorum_num`
with no single data id at quorum; with the flag up, nothing is ever
scheduled again; over any sequence of receipts at most one step schedules;
and the batch is one lazy vote per voter of the term, each delayed by
`TIMEOUT_VOTE` = 2.0 seconds. -/
theorem lazy_vote_timeout_once (c : SyncLayer) (s : SyncState) (v : Vote)
    (l : List Vote) :
    (s.vote_timeout_started = false →
      (c.step_vote s v).1.vote_timeout_started =
        (c.acceptsVote s.messages v && c.lazyCond (s.messages.add_vote v)) ∧
      (c.step_vote s v).2.filter isDelayedOutput =
        (if c.acceptsVote s.messages v && c.lazyCond (s.messages.add_vote v)
         then c.lazy_vote_batch else [])) ∧
    (s.vote_timeout_started = true →
      (c.step_vote s v).1.vote_timeout_started = true ∧
      hasDelayed (c.step_vote s v).2 = false) ∧
    countBatches (c.run_votes s l).2 ≤ 1 ∧
    c.lazy_vote_batch = c.term.get_voters_id.map (fun voter =>
      Output.delayed
        { delay := TIMEOUT_VOTE,
          event := .receiveVote (create_lazy_vote voter c.term.num c.round_num),
          deterministic := false }) ∧
    TIMEOUT_VOTE = 2 := by
  refine ⟨?_, fun h => step_vote_flag_true c s v h, run_votes_at_most_one c l s, rfl, rfl⟩
  intro hf
  rw [step_vote_spec]
  cases ha : c.acceptsVote s.messages v <;>
    cases hc : c.lazyCond (s.messages.add_vote v) <;>
    simp [ha, hc, hf, List.filter_append, filter_delayed_batch, filter_delayed_fwd]

/-- Witness for `lazy_vote_timeout_once`, scenario S3 (fragmented quorum):
on the 4-voter term (quorum 3) with two pooled votes for data `[10]`, a third
vote for data `[11]` reaches the quorum fragmented 2+1, so the step admits it
and the fragmented-quorum condition fires. -/
theorem lazy_vote_timeout_once_witness :
    ({ messages := { datas := [], votes := [sampleVote [0] [10], sampleVote [1] [10]] },
       vote_timeout_started := false } : SyncState).vote_timeout_started = false ∧
    ((sampleSync.step_vote
        { messages := { datas := [], votes := [sampleVote [0] [10], sampleVote [1] [10]] },
          vote_timeout_started := false }
        (sampleVote [2] [11])).1.vote_timeout_started =
      (sampleSync.acceptsVote
          ({ messages := { datas := [], votes := [sampleVote [0] [10], sampleVote [1] [10]] },
             vote_timeout_started := false } : SyncState).messages (sampleVote [2] [11]) &&
        sampleSync.lazyCond
          (({ messages := { datas := [], votes := [sampleVote [0] [10], sampleVote [1] [10]] },
              vote_timeout_started := false } : SyncState).messages.add_vote
            (sampleVote [2] [11]))) ∧
     (sampleSync.step_vote
        { messages := { datas := [], votes := [sampleVote [0] [10], sampleVote [1] [10]] },
          vote_timeout_started := false }
        (sampleVote [2] [11])).2.filter isDelayedOutput =
      (if sampleSync.acceptsVote
            ({ messages := { datas := [], votes := [sampleVote [0] [10], sampleVote [1] [10]] },
               vote_timeout_started := false } : SyncState).messages (sampleVote [2] [11]) &&
          sampleSync.lazyCond
            (({ messages := { datas := [], votes := [sampleVote [0] [10], sampleVote [1] [10]] },
                vote_timeout_started := false } : SyncState).messages.add_vote
              (sampleVote [2] [11]))
       then sampleSync.lazy_vote_batch else [])) ∧
    (sampleSync.acceptsVote
        ({ messages := { datas := [], votes := [sampleVote [0] [10], sampleVote [1] [10]] },
           vote_timeout_started := false } : SyncState).messages (sampleVote [2] [11]) &&
      sampleSync.lazyCond
        (({ messages := { datas := [], votes := [sampleVote [0] [10], sampleVote [1] [10]] },
            vote_timeout_started := false } : SyncState).messages.add_vote
          (sampleVote [2] [11]))) = true :=
  ⟨rfl,
   (lazy_vote_timeout_once sampleSync
      { messages := { datas := [], votes := [sampleVote [0] [10], sampleVote [1] [10]] },
        vote_timeout_started := false }
      (sampleVote [2] [11]) []).1 rfl,
   by decide⟩

/-- Successfully admitted data never schedules anything by itself: the
outputs of `_receive_data` are the forwarded data and forwarded votes. -/
lemma receive_data_impl_no_delayed (c : SyncLayer) (s : SyncState) (d : Data) :
    ∀ r, c.receive_data_impl s d = .ok r → ∀ sc, Output.delayed sc ∉ r.2 := by
  intro r h sc hmem
  unfold SyncLayer.receive_data_impl SyncLayer.verify_acceptable_data at h
  split_ifs at h <;> simp only [Except.bind] at h <;>
    first
    | exact Except.noConfusion h
    | (injection h with h2; subst h2;
       simp [SyncLayer.receive_votes_if_exist, List.mem_map] at hmem)

/-- Evaluation of `round_start` when the proposer lookup fails. -/
lemma round_start_none (c : SyncLayer) (s : SyncState)
    (hp : c.term.get_proposer_id c.round_num = none) :
    c.round_start s = .error .indexError := by
  unfold SyncLayer.round_start SyncLayer.new_unreal_datums
  rw [hp]
  rfl

/-- Evaluation of `round_start` when admitting the none-data fails. -/
lemma round_start_err (c : SyncLayer) (s : SyncState) (p : Bytes)
    (hp : c.term.get_proposer_id c.round_num = some p) (e : Err)
    (hr : c.receive_data_impl s (create_none_data c.term.num c.round_num p) = .error e) :
    c.round_start s = .error e := by
  unfold SyncLayer.round_start SyncLayer.new_unreal_datums
  simp only [hp, hr]
  rfl

/-- Evaluation of `round_start` on a successfully admitted none-data: its
outputs, then the scheduled lazy-data, then the Round layer start. -/
lemma round_start_ok (c : SyncLayer) (s : SyncState) (p : Bytes)
    (hp : c.term.get_proposer_id c.round_num = some p)
    (s1 : SyncState) (outs1 : List Output)
    (hr : c.receive_data_impl s (create_none_data c.term.num c.round_num p) =
      .ok (s1, outs1)) :
    c.round_start s = .ok (s1,
      (outs1 ++
        [Output.delayed
          { delay := TIMEOUT_PROPOSE,
            event := .receiveData (create_lazy_data c.term.num c.round_num p),
            deterministic := false }]) ++ [Output.roundStartToRound]) := by
  unfold SyncLayer.round_start SyncLayer.new_unreal_datums
  simp only [hp, hr]
  rfl

/-- C10: every event the Sync layer schedules on the delayed mediator — the
lazy-data scheduled by `round_start` and the lazy votes scheduled on a
fragmented quorum — carries `deterministic = false` at scheduling time. -/
theorem sync_timeout_events_nondeterministic (c : SyncLayer) (s : SyncState)
    (d : Data) (v : Vote) :
    (∀ r, c.round_start s = .ok r →
      ∀ sc, Output.delayed sc ∈ r.2 → sc.deterministic = false) ∧
    (∀ r, c.receive_data s d = .ok r →
      ∀ sc, Output.delayed sc ∈ r.2 → sc.deterministic = false) ∧
    (∀ sc, Output.delayed sc ∈ (c.step_vote s v).2 → sc.deterministic = false) := by
  refine ⟨?_, ?_, ?_⟩
  · intro r h sc hmem
    cases hp : c.term.get_proposer_id c.round_num with
    | none =>
      rw [round_start_none c s hp] at h
      exact Except.noConfusion h
    | some p =>
      cases hr : c.receive_data_impl s (create_none_data c.term.num c.round_num p) with
      | error e =>
        rw [round_start_err c s p hp e hr] at h
        exact Except.noConfusion h
      | ok r1 =>
        rw [round_start_ok c s p hp r1.1 r1.2 hr] at h
        cases h
        have hno := receive_data_impl_no_delayed c s _ _ hr sc
        simp only [List.mem_append, List.mem_singleton] at hmem
        rcases hmem with (hmem | hmem) | hmem
        · exact absurd hmem (by simpa using hno)
        · cases hmem; rfl
        · cases hmem
  · intro r h sc hmem
    unfold SyncLayer.receive_data at h
    cases hr : c.receive_data_impl s d with
    | ok rr =>
      rw [hr] at h
      injection h with h2
      subst h2
      exact absurd hmem (receive_data_impl_no_delayed c s d _ hr sc)
    | error e =>
      rw [hr] at h
      cases e <;>
        first
        | (cases h; exact absurd hmem (List.not_mem_nil _))
        | exact Except.noConfusion h
  · intro sc hmem
    rw [step_vote_spec] at hmem
    cases ha : c.acceptsVote s.messages v <;>
      cases hc : c.lazyCond (s.messages.add_vote v) <;>
      cases hfl : s.vote_timeout_started <;>
      simp only [ha, hc, hfl, Bool.not_true, Bool.not_false, Bool.true_and,
        Bool.false_and, Bool.and_true, Bool.and_false, if_true, if_false,
        List.mem_append] at hmem
    all_goals
      first
      | exact absurd hmem (List.not_mem_nil _)
      | exact absurd hmem (delayed_not_mem_fwd _ v sc)
      | (rcases hmem with hmem | hmem;
         · exact absurd hmem (delayed_not_mem_fwd _ v sc)
         · exact (delayed_mem_batch c sc hmem).1)

/-- Witness for `sync_timeout_events_nondeterministic`: the lazy-data event
scheduled by `round_start` on the 4-voter round-0 layer has its
`deterministic` flag cleared. -/
theorem sync_timeout_events_nondeterministic_witness :
    sampleSync.round_start initSyncState = .ok
      ({ messages := { datas := [create_none_data 0 0 [0]], votes := [] },
         vote_timeout_started := false },
       [Output.dataToRound (create_none_data 0 0 [0]),
        Output.delayed
          { delay := TIMEOUT_PROPOSE,
            event := .receiveData (create_lazy_data 0 0 [0]),
            deterministic := false },
        Output.roundStartToRound]) ∧
    Output.delayed
        { delay := TIMEOUT_PROPOSE,
          event := .receiveData (create_lazy_data 0 0 [0]),
          deterministic := false } ∈
      [Output.dataToRound (create_none_data 0 0 [0]),
       Output.delayed
         { delay := TIMEOUT_PROPOSE,
           event := .receiveData (create_lazy_data 0 0 [0]),
           deterministic := false },
       Output.roundStartToRound] ∧
    ({ delay := TIMEOUT_PROPOSE,
       event := .receiveData (create_lazy_data 0 0 [0]),
       deterministic := false } : Scheduled).deterministic = false :=
  ⟨rfl, by simp,
   (sync_timeout_events_nondeterministic sampleSync initSyncState sampleData
      (sampleVote [0] [10])).1
     ({ messages := { datas := [create_none_data 0 0 [0]], votes := [] },
        vote_timeout_started := false },
      [Output.dataToRound (create_none_data 0 0 [0]),
       Output.delayed
         { delay := TIMEOUT_PROPOSE,
           event := .receiveData (create_lazy_data 0 0 [0]),
           deterministic := false },
       Output.roundStartToRound])
     rfl
     { delay := TIMEOUT_PROPOSE,
       event := .receiveData (create_lazy_data 0 0 [0]),
       deterministic := false }
     (by simp)⟩

end LFT
